import Mathlib

/-!
Shallow embedding of `src/scripts/lightgbm_cli/score.py`: a CLI component
that assembles a LightGBM command line and runs it as a subprocess.

The script's effects are made explicit:
* the filesystem is a record of existing file paths and directory paths
  (`os.path.isfile` / `os.makedirs`);
* the external world is an oracle mapping a command string to the behaviour
  of the spawned process (its stdout, stderr, exit code and running time);
* `run` returns a trace: the final filesystem, the list of commands that
  were handed to the process runner, and either the normal result or the
  message of the raised exception.
-/

namespace LightGBMCli

/-- Parsed argument namespace produced by `get_arg_parser` in `score.py`
(lines 42-50): `--lightgbm_exec` (required), `--data` (required),
`--model` (optional), `--output` (optional, default `None`).  Optional
values are `Option String`; `none` is Python's `None`. -/
structure Args where
  lightgbm_exec : String
  data : String
  model : Option String
  output : Option String
deriving Repr, DecidableEq

/-- Modelled filesystem state: which paths are existing regular files
(queried by `os.path.isfile`) and which are existing directories
(created by `os.makedirs`). -/
structure FileSystem where
  files : List String
  dirs : List String
deriving Repr, DecidableEq

/-- Model of `os.path.isfile`: the path references an existing regular
file. -/
def FileSystem.isFile (fs : FileSystem) (p : String) : Bool :=
  fs.files.contains p

/-- Model of `os.makedirs(p, exist_ok=True)`: ensure directory `p` exists;
it never creates or removes regular files. -/
def FileSystem.makedirs (fs : FileSystem) (p : String) : FileSystem :=
  { fs with dirs := if fs.dirs.contains p then fs.dirs else p :: fs.dirs }

/-- Model of `os.path.join(a, b)` for POSIX paths, as used at `score.py`
line 65: an absolute `b` replaces `a`; otherwise `b` is appended to `a`
with a separator inserted unless `a` is empty or already ends in one. -/
def osPathJoin (a b : String) : String :=
  if b.data.head? = some '/' then b
  else if a = "" then b
  else if a.data.getLast? = some '/' then a ++ b
  else a ++ "/" ++ b

/-- Python `str()` of an `Optional[str]` value, as an f-string renders it:
`None` becomes the literal text `"None"` (`score.py` line 74). -/
def pyStr : Option String → String
  | some s => s
  | none => "None"

/-- Python truthiness of an `Optional[str]` value (`if args.output:`):
`None` and the empty string are falsy. -/
def pyTruthy : Option String → Bool
  | none => false
  | some s => !(s == "")

/-- Behaviour of the external process for one command: what it writes on
stdout/stderr, its exit code, and how long it runs (abstract time units). -/
structure ProcBehavior where
  stdout : String
  stderr : String
  returncode : Int
  runningTime : Nat
deriving Repr, DecidableEq

/-- Model of `subprocess.CompletedProcess` as used by the script: captured
stdout, stderr, and `.returncode`. -/
structure CompletedProcess where
  stdout : String
  stderr : String
  returncode : Int
deriving Repr, DecidableEq

/-- Model of `subprocess.run(cmd, stdout=PIPE, stderr=PIPE,
universal_newlines=True, check=False, timeout=t)`: when a timeout `t` is
given and the process runs longer, `TimeoutExpired` is raised (modelled as
`Except.error ()`); otherwise the process runs to completion and the
completed process is returned, `check=False` meaning a non-zero exit code
is never turned into an exception. -/
def subprocessRun (cmd : String) (timeout : Option Nat)
    (world : String → ProcBehavior) : Except Unit CompletedProcess :=
  let b := world cmd
  match timeout with
  | some t => if t < b.runningTime then .error () else .ok ⟨b.stdout, b.stderr, b.returncode⟩
  | none => .ok ⟨b.stdout, b.stderr, b.returncode⟩

/-- Normal outcome of `run`: the joined command string that was handed to
`subprocess.run`, its token vector, and the captured process result
(`score.py` lines 84-94). -/
structure RunResult where
  command : String
  tokens : List String
  stdout : String
  stderr : String
  returncode : Int
deriving Repr, DecidableEq

/-- Trace of one call to `run`: the filesystem after the call, the commands
that were handed to the process runner (in order), and either the normal
result or the message of the exception `run` raised. -/
structure RunTrace where
  fs : FileSystem
  executed : List String
  result : Except String RunResult
deriving Repr

/-- Token list of the constructed command when `run` completed normally,
`[]` when it raised. -/
def RunTrace.resultTokens (t : RunTrace) : List String :=
  match t.result with
  | .ok r => r.tokens
  | .error _ => []

/-- Lines 63-65 of `score.py`: if `args.output` is truthy, create the
directory and replace `args.output` by
`os.path.join(args.output, "predictions.txt")`. -/
def resolveOutput (args : Args) (fs : FileSystem) : Args × FileSystem :=
  if pyTruthy args.output then
    ({ args with output := some (osPathJoin (pyStr args.output) "predictions.txt") },
     fs.makedirs (pyStr args.output))
  else (args, fs)

/-- Lines 70-78 of `score.py`: the `lightgbm_cli_command` token list, built
from the (output-resolved) arguments. -/
def buildTokens (args : Args) : List String :=
  let base := [args.lightgbm_exec,
               "task=prediction",
               "data=" ++ args.data,
               "input_model=" ++ pyStr args.model,
               "verbosity=2"]
  if pyTruthy args.output then base ++ ["output_result=" ++ pyStr args.output] else base

/-- Function `run(args, other_args=[])`, `score.py` lines 55-94.  Mirrors
the source line by line: resolve the output directory (lines 63-65), raise
if the executable path is not an existing file (lines 67-68), build the
token list (lines 70-78), then call `subprocess.run` on the single-space
join of the tokens with `check=False` and `timeout=None` (lines 84-91).
`other_args` is accepted (line 55) and never used by the body. -/
def run (args : Args) (other_args : List String) (fs : FileSystem)
    (world : String → ProcBehavior) : RunTrace :=
  let resolved := resolveOutput args fs
  let args1 := resolved.1
  let fs1 := resolved.2
  if fs1.isFile args1.lightgbm_exec = false then
    { fs := fs1, executed := [],
      result := .error ("Could not find lightgbm exec under path " ++ args1.lightgbm_exec) }
  else
    let cmdTokens := buildTokens args1
    let joined := String.intercalate " " cmdTokens
    match subprocessRun joined none world with
    | .error _ => { fs := fs1, executed := [joined], result := .error "TimeoutExpired" }
    | .ok res =>
      { fs := fs1, executed := [joined],
        result := .ok ⟨joined, cmdTokens, res.stdout, res.stderr, res.returncode⟩ }

/-- Function `main` (`score.py` lines 97-108) parses the CLI arguments with
`parse_known_args` and calls `run(args, unknown_args)`; the interpreter
exits with status 0 when `main` returns normally and with a non-zero
status when an exception propagates.  This models the component's own
process exit status as a function of the parsed arguments. -/
def mainExitCode (args : Args) (unknown_args : List String) (fs : FileSystem)
    (world : String → ProcBehavior) : Nat :=
  match (run args unknown_args fs world).result with
  | .ok _ => 0
  | .error _ => 1

/-- Concrete external-world oracle for witnesses: every command prints `A`
on stdout, `B` on stderr, exits with code 7 and runs for 5 time units. -/
def exWorld : String → ProcBehavior :=
  fun _ => { stdout := "A", stderr := "B", returncode := 7, runningTime := 5 }

/-- Concrete argument set for witnesses: all four options provided. -/
def exArgs : Args :=
  { lightgbm_exec := "/bin/lightgbm", data := "/data/test.bin",
    model := some "/models/m.txt", output := some "/out" }

/-- Concrete argument set with `--model` and `--output` omitted. -/
def exArgsNoModel : Args :=
  { lightgbm_exec := "/bin/lightgbm", data := "/data/test.bin",
    model := none, output := none }

/-- Concrete filesystem on which the executable exists. -/
def exFs : FileSystem := { files := ["/bin/lightgbm"], dirs := [] }

/-- Concrete filesystem on which no file exists. -/
def exFsEmpty : FileSystem := { files := [], dirs := [] }

/-! ### Helper lemmas -/

theorem bool_eq_false_of_ne_true {b : Bool} (h : ¬ b = true) : b = false := by
  cases b
  · rfl
  · exact absurd rfl h

theorem empty_of_append_right {a b : String} (h : a ++ b = "") : b = "" := by
  have h2 := congrArg String.data h
  rw [String.data_append] at h2
  exact String.ext (List.append_eq_nil.mp h2).2

theorem data_head_append (p s : String) (c : Char) (h : p.data.head? = some c) :
    (p ++ s).data.head? = some c := by
  rw [String.data_append]
  cases hp : p.data with
  | nil => rw [hp] at h; cases h
  | cons x l =>
    rw [hp] at h
    simp at h
    simp [h]

theorem output_result_ne_of_head (t o : String) (c : Char)
    (ht : t.data.head? = some c) (hc : c ≠ 'o') : ("output_result=" ++ o) ≠ t := by
  have h1 : ("output_result=" ++ o).data.head? = some 'o' :=
    data_head_append "output_result=" o 'o' rfl
  intro he
  rw [he, ht] at h1
  exact hc (Option.some.inj h1)

theorem subprocessRun_none (cmd : String) (world : String → ProcBehavior) :
    subprocessRun cmd none world =
      .ok ⟨(world cmd).stdout, (world cmd).stderr, (world cmd).returncode⟩ := rfl

theorem resolveOutput_exec (args : Args) (fs : FileSystem) :
    (resolveOutput args fs).1.lightgbm_exec = args.lightgbm_exec := by
  unfold resolveOutput
  split <;> rfl

theorem resolveOutput_files (args : Args) (fs : FileSystem) :
    (resolveOutput args fs).2.files = fs.files := by
  unfold resolveOutput FileSystem.makedirs
  split <;> rfl

theorem resolveOutput_isFile (args : Args) (fs : FileSystem) :
    (resolveOutput args fs).2.isFile (resolveOutput args fs).1.lightgbm_exec
      = fs.isFile args.lightgbm_exec := by
  unfold FileSystem.isFile
  rw [resolveOutput_files, resolveOutput_exec]

theorem run_of_not_isFile (args : Args) (other : List String) (fs : FileSystem)
    (world : String → ProcBehavior) (hx : fs.isFile args.lightgbm_exec = false) :
    run args other fs world =
      { fs := (resolveOutput args fs).2, executed := [],
        result := .error ("Could not find lightgbm exec under path "
                            ++ args.lightgbm_exec) } := by
  have h1 : (resolveOutput args fs).2.isFile (resolveOutput args fs).1.lightgbm_exec
      = false := by rw [resolveOutput_isFile]; exact hx
  simp only [run]
  rw [if_pos h1, resolveOutput_exec]

theorem run_of_isFile (args : Args) (other : List String) (fs : FileSystem)
    (world : String → ProcBehavior) (hx : fs.isFile args.lightgbm_exec = true) :
    run args other fs world =
      { fs := (resolveOutput args fs).2,
        executed := [String.intercalate " " (buildTokens (resolveOutput args fs).1)],
        result := .ok
          { command := String.intercalate " " (buildTokens (resolveOutput args fs).1),
            tokens := buildTokens (resolveOutput args fs).1,
            stdout :=
              (world (String.intercalate " " (buildTokens (resolveOutput args fs).1))).stdout,
            stderr :=
              (world (String.intercalate " " (buildTokens (resolveOutput args fs).1))).stderr,
            returncode :=
              (world (String.intercalate " "
                (buildTokens (resolveOutput args fs).1))).returncode } } := by
  have h1 : (resolveOutput args fs).2.isFile (resolveOutput args fs).1.lightgbm_exec
      = true := by rw [resolveOutput_isFile]; exact hx
  have h2 : ¬ ((resolveOutput args fs).2.isFile (resolveOutput args fs).1.lightgbm_exec
      = false) := by rw [h1]; simp
  simp only [run]
  rw [if_neg h2]
  rfl

theorem osPathJoin_ne_empty (a b : String) (hb : b ≠ "") : osPathJoin a b ≠ "" := by
  unfold osPathJoin
  split
  · exact hb
  · split
    · exact hb
    · split
      · intro h
        exact hb (empty_of_append_right h)
      · intro h
        exact hb (empty_of_append_right h)

theorem buildTokens_resolveOutput (args : Args) (fs : FileSystem) :
    buildTokens (resolveOutput args fs).1 =
      [args.lightgbm_exec, "task=prediction", "data=" ++ args.data,
       "input_model=" ++ pyStr args.model, "verbosity=2"]
      ++ (if pyTruthy args.output
          then ["output_result=" ++ osPathJoin (pyStr args.output) "predictions.txt"]
          else []) := by
  cases ho : args.output with
  | none => simp [resolveOutput, buildTokens, pyTruthy, ho]
  | some s =>
    by_cases hs : s = ""
    · subst hs
      simp [resolveOutput, buildTokens, pyTruthy, ho]
    · have hne : osPathJoin s "predictions.txt" ≠ "" :=
        osPathJoin_ne_empty s "predictions.txt" (by decide)
      simp [resolveOutput, buildTokens, pyTruthy, pyStr, ho, hs, hne]

theorem mem_dirs_makedirs (fs : FileSystem) (p : String) : p ∈ (fs.makedirs p).dirs := by
  simp only [FileSystem.makedirs]
  split
  next hc => exact List.mem_of_elem_eq_true hc
  next => exact List.mem_cons_self p fs.dirs

theorem mem_dirs_resolveOutput (args : Args) (fs : FileSystem) (d : String)
    (ho : args.output = some d) (hd : d ≠ "") :
    d ∈ (resolveOutput args fs).2.dirs := by
  have ht : pyTruthy args.output = true := by rw [ho]; simp [pyTruthy, hd]
  unfold resolveOutput
  rw [if_pos ht]
  show d ∈ (fs.makedirs (pyStr args.output)).dirs
  rw [ho]
  exact mem_dirs_makedirs fs d

/-! ### Claims -/

/-- C1: for every invocation where the `--lightgbm_exec` path does not
reference an existing file, `run` raises the configuration error before
any subprocess is started — the trace records no executed command and the
result is the raised exception. -/
theorem run_missing_exec_raises (args : Args) (other : List String) (fs : FileSystem)
    (world : String → ProcBehavior) (hx : fs.isFile args.lightgbm_exec = false) :
    (run args other fs world).executed = [] ∧
    (run args other fs world).result =
      .error ("Could not find lightgbm exec under path " ++ args.lightgbm_exec) := by
  rw [run_of_not_isFile args other fs world hx]
  exact ⟨rfl, rfl⟩

/-- Witness for C1 at a concrete input: the executable is absent and no
command is executed. -/
theorem run_missing_exec_raises_witness :
    exFsEmpty.isFile exArgs.lightgbm_exec = false ∧
    ((run exArgs [] exFsEmpty exWorld).executed = [] ∧
     (run exArgs [] exFsEmpty exWorld).result =
       .error ("Could not find lightgbm exec under path " ++ exArgs.lightgbm_exec)) :=
  ⟨by decide, run_missing_exec_raises exArgs [] exFsEmpty exWorld (by decide)⟩

/-- C2: for every validated argument set the constructed command line is
the ordered token vector — the executable path, `task=prediction`,
`data=<data path>`, the `input_model` token (carrying the provided model
path when a model is given), `verbosity=2`, optionally followed by an
`output_result` token; in particular it always includes `task=prediction`,
the provided data path, and the provided model path when present. -/
theorem run_builds_prediction_command (args : Args) (other : List String)
    (fs : FileSystem) (world : String → ProcBehavior)
    (hx : fs.isFile args.lightgbm_exec = true) :
    (run args other fs world).resultTokens =
      [args.lightgbm_exec, "task=prediction", "data=" ++ args.data,
       "input_model=" ++ pyStr args.model, "verbosity=2"]
      ++ (if pyTruthy args.output
          then ["output_result=" ++ osPathJoin (pyStr args.output) "predictions.txt"]
          else []) ∧
    "task=prediction" ∈ (run args other fs world).resultTokens ∧
    ("data=" ++ args.data) ∈ (run args other fs world).resultTokens ∧
    (∀ m, args.model = some m →
      ("input_model=" ++ m) ∈ (run args other fs world).resultTokens) := by
  have htok : (run args other fs world).resultTokens =
      [args.lightgbm_exec, "task=prediction", "data=" ++ args.data,
       "input_model=" ++ pyStr args.model, "verbosity=2"]
      ++ (if pyTruthy args.output
          then ["output_result=" ++ osPathJoin (pyStr args.output) "predictions.txt"]
          else []) := by
    rw [run_of_isFile args other fs world hx]
    exact buildTokens_resolveOutput args fs
  refine ⟨htok, ?_, ?_, ?_⟩
  · rw [htok]; simp
  · rw [htok]; simp
  · intro m hm
    rw [htok, hm]
    simp [pyStr]

/-- Witness for C2 at a concrete input with all options provided. -/
theorem run_builds_prediction_command_witness :
    exFs.isFile exArgs.lightgbm_exec = true ∧
    ((run exArgs [] exFs exWorld).resultTokens =
       [exArgs.lightgbm_exec, "task=prediction", "data=" ++ exArgs.data,
        "input_model=" ++ pyStr exArgs.model, "verbosity=2"]
       ++ (if pyTruthy exArgs.output
           then ["output_result=" ++ osPathJoin (pyStr exArgs.output) "predictions.txt"]
           else []) ∧
     "task=prediction" ∈ (run exArgs [] exFs exWorld).resultTokens ∧
     ("data=" ++ exArgs.data) ∈ (run exArgs [] exFs exWorld).resultTokens ∧
     (∀ m, exArgs.model = some m →
       ("input_model=" ++ m) ∈ (run exArgs [] exFs exWorld).resultTokens)) :=
  ⟨by decide, run_builds_prediction_command exArgs [] exFs exWorld (by decide)⟩

/-- C3: with a valid executable, when `--output=<dir>` is given (a
non-empty directory path) the directory is created and the command line
carries the token `output_result=<dir>/predictions.txt`; when `--output`
is omitted the command line carries no `output_result=` token at all (the
executable path itself is assumed not to be an `output_result=...`
string). -/
theorem run_output_result_handling (args : Args) (other : List String)
    (fs : FileSystem) (world : String → ProcBehavior)
    (hx : fs.isFile args.lightgbm_exec = true)
    (hexec : ∀ o : String, args.lightgbm_exec ≠ "output_result=" ++ o) :
    (∀ d, args.output = some d → d ≠ "" →
        d ∈ (run args other fs world).fs.dirs ∧
        ("output_result=" ++ osPathJoin d "predictions.txt")
          ∈ (run args other fs world).resultTokens) ∧
    (args.output = none →
        ∀ o : String, ("output_result=" ++ o) ∉ (run args other fs world).resultTokens) := by
  have hfs : (run args other fs world).fs = (resolveOutput args fs).2 := by
    rw [run_of_isFile args other fs world hx]
  have htok : (run args other fs world).resultTokens
      = buildTokens (resolveOutput args fs).1 := by
    rw [run_of_isFile args other fs world hx]
    rfl
  constructor
  · intro d ho hd
    refine ⟨?_, ?_⟩
    · rw [hfs]
      exact mem_dirs_resolveOutput args fs d ho hd
    · rw [htok, buildTokens_resolveOutput, ho]
      have ht : pyTruthy (some d) = true := by simp [pyTruthy, hd]
      simp [ht, pyStr]
  · intro ho o hmem
    rw [htok, buildTokens_resolveOutput, ho] at hmem
    simp [pyTruthy] at hmem
    rcases hmem with h | h | h | h | h
    · exact hexec o h.symm
    · exact output_result_ne_of_head "task=prediction" o 't' rfl (by decide) h
    · exact output_result_ne_of_head ("data=" ++ args.data) o 'd'
        (data_head_append "data=" args.data 'd' rfl) (by decide) h
    · exact output_result_ne_of_head ("input_model=" ++ pyStr args.model) o 'i'
        (data_head_append "input_model=" (pyStr args.model) 'i' rfl) (by decide) h
    · exact output_result_ne_of_head "verbosity=2" o 'v' rfl (by decide) h

/-- Witness for C3 at a concrete input with `--output=/out`. -/
theorem run_output_result_handling_witness :
    exFs.isFile exArgs.lightgbm_exec = true ∧
    (∀ o : String, exArgs.lightgbm_exec ≠ "output_result=" ++ o) ∧
    ((∀ d, exArgs.output = some d → d ≠ "" →
        d ∈ (run exArgs [] exFs exWorld).fs.dirs ∧
        ("output_result=" ++ osPathJoin d "predictions.txt")
          ∈ (run exArgs [] exFs exWorld).resultTokens) ∧
     (exArgs.output = none →
        ∀ o : String, ("output_result=" ++ o) ∉ (run exArgs [] exFs exWorld).resultTokens)) := by
  have hexec : ∀ o : String, exArgs.lightgbm_exec ≠ "output_result=" ++ o := by
    intro o h
    have hl := congrArg String.length h
    rw [String.length_append] at hl
    rw [show exArgs.lightgbm_exec.length = 13 from rfl] at hl
    rw [show ("output_result=" : String).length = 14 from rfl] at hl
    omega
  exact ⟨by decide, hexec,
    run_output_result_handling exArgs [] exFs exWorld (by decide) hexec⟩

/-- C4: for every external process behaviour, `run` captures the process
exit code in the result without raising on a non-zero exit: it completes
normally and the recorded return code (and stdout/stderr) are exactly the
ones produced by the external process for the executed command. -/
theorem run_captures_exit_code (args : Args) (other : List String) (fs : FileSystem)
    (world : String → ProcBehavior) (hx : fs.isFile args.lightgbm_exec = true) :
    ∃ r : RunResult, (run args other fs world).result = .ok r ∧
      r.returncode = (world r.command).returncode ∧
      r.stdout = (world r.command).stdout ∧
      r.stderr = (world r.command).stderr := by
  rw [run_of_isFile args other fs world hx]
  exact ⟨_, rfl, rfl, rfl, rfl⟩

/-- Witness for C4 at a concrete input whose external tool exits with
code 7. -/
theorem run_captures_exit_code_witness :
    exFs.isFile exArgs.lightgbm_exec = true ∧
    (∃ r : RunResult, (run exArgs [] exFs exWorld).result = .ok r ∧
      r.returncode = (exWorld r.command).returncode ∧
      r.stdout = (exWorld r.command).stdout ∧
      r.stderr = (exWorld r.command).stderr) :=
  ⟨by decide, run_captures_exit_code exArgs [] exFs exWorld (by decide)⟩

/-- C5: for every invocation in which the subprocess is started, the
component's own process exit status is 0, regardless of the external
tool's exit code: the non-zero exit code is only logged, never propagated
to the component's exit status. -/
theorem main_exit_zero_when_started (args : Args) (unknown_args : List String)
    (fs : FileSystem) (world : String → ProcBehavior)
    (h : (run args unknown_args fs world).executed ≠ []) :
    mainExitCode args unknown_args fs world = 0 := by
  by_cases hx : fs.isFile args.lightgbm_exec = true
  · unfold mainExitCode
    rw [run_of_isFile args unknown_args fs world hx]
  · rw [run_of_not_isFile args unknown_args fs world (bool_eq_false_of_ne_true hx)] at h
    exact absurd rfl h

/-- Witness for C5 at a concrete input whose external tool exits with
code 7: the subprocess is started and the component exits with status 0. -/
theorem main_exit_zero_when_started_witness :
    (run exArgs [] exFs exWorld).executed ≠ [] ∧
    mainExitCode exArgs [] exFs exWorld = 0 :=
  ⟨by decide, main_exit_zero_when_started exArgs [] exFs exWorld (by decide)⟩

/-- C6 counterexample: with `--model` omitted the fifth token of the
constructed command line is `verbosity=2`, not `input_model=None` (the
`input_model=None` token is the fourth). -/
theorem run_fifth_token_is_verbosity :
    (run exArgsNoModel [] exFs exWorld).resultTokens.get? 4 ≠ some "input_model=None" ∧
    (run exArgsNoModel [] exFs exWorld).resultTokens.get? 4 = some "verbosity=2" := by
  decide

/-- C6 amended: for every invocation with `--model` omitted (and a valid
executable), the constructed command line contains the fourth token
exactly as the literal string `input_model=None` — the `input_model` key
is emitted unconditionally, even with no model. -/
theorem run_input_model_none_token (args : Args) (other : List String)
    (fs : FileSystem) (world : String → ProcBehavior)
    (hm : args.model = none) (hx : fs.isFile args.lightgbm_exec = true) :
    (run args other fs world).resultTokens.get? 3 = some "input_model=None" := by
  rw [run_of_isFile args other fs world hx]
  show (buildTokens (resolveOutput args fs).1).get? 3 = some "input_model=None"
  rw [buildTokens_resolveOutput, hm]
  rfl

/-- Witness for the amended C6 at a concrete input with no model. -/
theorem run_input_model_none_token_witness :
    exArgsNoModel.model = none ∧ exFs.isFile exArgsNoModel.lightgbm_exec = true ∧
    (run exArgsNoModel [] exFs exWorld).resultTokens.get? 3 = some "input_model=None" :=
  ⟨rfl, by decide, run_input_model_none_token exArgsNoModel [] exFs exWorld rfl (by decide)⟩

/-- C7: when `--output=<dir>` is given (a non-empty directory path) and
the `--lightgbm_exec` path is not an existing file, the directory is
nevertheless created before the configuration error is raised: the
failing trace already contains the new directory, so the error path is
not atomic. -/
theorem run_creates_dir_before_error (args : Args) (other : List String)
    (fs : FileSystem) (world : String → ProcBehavior) (d : String)
    (ho : args.output = some d) (hd : d ≠ "")
    (hx : fs.isFile args.lightgbm_exec = false) :
    d ∈ (run args other fs world).fs.dirs ∧
    (run args other fs world).executed = [] ∧
    (run args other fs world).result =
      .error ("Could not find lightgbm exec under path " ++ args.lightgbm_exec) := by
  rw [run_of_not_isFile args other fs world hx]
  exact ⟨mem_dirs_resolveOutput args fs d ho hd, rfl, rfl⟩

/-- Witness for C7 at a concrete input: `/out` is created although the
invocation fails. -/
theorem run_creates_dir_before_error_witness :
    exArgs.output = some "/out" ∧ ("/out" : String) ≠ "" ∧
    exFsEmpty.isFile exArgs.lightgbm_exec = false ∧
    ("/out" ∈ (run exArgs [] exFsEmpty exWorld).fs.dirs ∧
     (run exArgs [] exFsEmpty exWorld).executed = [] ∧
     (run exArgs [] exFsEmpty exWorld).result =
       .error ("Could not find lightgbm exec under path " ++ exArgs.lightgbm_exec)) :=
  ⟨rfl, by decide, by decide,
    run_creates_dir_before_error exArgs [] exFsEmpty exWorld "/out" rfl (by decide) (by decide)⟩

/-- C8: the subprocess call is made with no timeout: `run` never yields a
`TimeoutExpired` error, and a call of the process runner with
`timeout=None` completes normally with the full captured behaviour,
however long the external process runs. -/
theorem run_unbounded_wait (args : Args) (other : List String) (fs : FileSystem)
    (world : String → ProcBehavior) :
    (run args other fs world).result ≠ .error "TimeoutExpired" ∧
    ∀ cmd : String, subprocessRun cmd none world =
      .ok ⟨(world cmd).stdout, (world cmd).stderr, (world cmd).returncode⟩ := by
  constructor
  · by_cases hx : fs.isFile args.lightgbm_exec = true
    · rw [run_of_isFile args other fs world hx]
      intro h
      exact Except.noConfusion h
    · rw [run_of_not_isFile args other fs world (bool_eq_false_of_ne_true hx)]
      intro h
      have h2 := Except.error.inj h
      have h3 : ("Could not find lightgbm exec under path "
            ++ args.lightgbm_exec).data.head?
          = ("TimeoutExpired" : String).data.head? := by rw [h2]
      rw [data_head_append "Could not find lightgbm exec under path "
        args.lightgbm_exec 'C' rfl] at h3
      exact absurd h3 (by decide)
  · intro cmd
    rfl

/-- C9: the command handed to the process runner is exactly the
single-space join of the token vector, with no quoting or escaping of any
token. -/
theorem run_joins_tokens_with_space (args : Args) (other : List String)
    (fs : FileSystem) (world : String → ProcBehavior)
    (hx : fs.isFile args.lightgbm_exec = true) :
    ∃ r : RunResult, (run args other fs world).result = .ok r ∧
      r.command = String.intercalate " " r.tokens ∧
      (run args other fs world).executed = [r.command] := by
  rw [run_of_isFile args other fs world hx]
  exact ⟨_, rfl, rfl, rfl⟩

/-- Witness for C9 at a concrete input. -/
theorem run_joins_tokens_with_space_witness :
    exFs.isFile exArgs.lightgbm_exec = true ∧
    (∃ r : RunResult, (run exArgs [] exFs exWorld).result = .ok r ∧
      r.command = String.intercalate " " r.tokens ∧
      (run exArgs [] exFs exWorld).executed = [r.command]) :=
  ⟨by decide, run_joins_tokens_with_space exArgs [] exFs exWorld (by decide)⟩

/-- C10: two invocations sharing the same recognized arguments but
differing in the unrecognized extra tokens behave identically — the whole
trace (filesystem, executed commands, result) is the same, because `run`
accepts the unknown tokens and never uses them. -/
theorem run_independent_of_unknown_args (args : Args) (fs : FileSystem)
    (world : String → ProcBehavior) (other1 other2 : List String) :
    run args other1 fs world = run args other2 fs world := rfl

end LightGBMCli
